import Mathlib

/-!
Verification of the Aternos Discord bot (`bot.py`): a shallow embedding of
the session/command orchestration core — the login lifecycle and the
start/status/stop command handlers — together with theorems about the
reply traces and host-automation call traces the handlers produce.

Each handler is modelled as a pure function from its inputs (the bound
output channel id, the selected server, the invoking channel id, and an
environment recording what each blocking host-automation call returns or
raises) to the ordered list of externally visible events it performs:
host-automation calls, direct replies via `ctx.send`, and routed replies
via `send_output`.
-/

namespace AternosBot

/-- A selected Aternos server handle. The only attribute the handlers read
outside of a worker thread is its address (`aternos_server.address`). -/
structure AternosServer where
  address : String
  deriving DecidableEq, Repr

/-- Environment of one command invocation: the outcome of each blocking
host-automation call the handler may perform (each `asyncio.to_thread(...)`
site in `bot.py`). `Except.error e` models the call raising an exception
whose string rendering is `e`; `Except.ok` models normal return. -/
structure HostEnv where
  fetchR : Except String Unit
  statusR : Except String String
  playersR : Except String Nat
  slotsR : Except String Nat
  startR : Except String Unit
  confirmR : Except String Unit
  stopR : Except String Unit
  deriving Repr

/-- The distinct chat messages the three command handlers can send, one
constructor per send site in `bot.py`, carrying the data interpolated into
the message text. `render` gives the literal text. -/
inductive Msg where
  | wrongChannel (ocId : Nat)
  | notConfigured
  | attemptStart (addr : String)
  | alreadyOnline
  | queueWait
  | startConfirmed
  | startSent
  | errStart (e : String)
  | statusOnline (players slots : Nat) (addr : String)
  | statusOffline
  | statusStarting
  | statusPending
  | statusUnknown (st : String)
  | errStatus (e : String)
  | attemptStop (addr : String)
  | alreadyOffline
  | stopSent
  | errStop (e : String)
  deriving DecidableEq, Repr

/-- Python's `str.upper()` on the status string (ASCII case mapping). -/
def strUpper (s : String) : String := ⟨s.data.map Char.toUpper⟩

/-- The literal message text of each send site, verbatim from `bot.py`.
A Discord channel mention renders as the angle-bracket form of its id. -/
def render : Msg → String
  | .wrongChannel c => "Please use the dedicated channel: <#" ++ toString c ++ ">"
  | .notConfigured => "Aternos server is not configured or failed to log in."
  | .attemptStart a => "Attempting to **START** Aternos server: `" ++ a ++ "`..."
  | .alreadyOnline => "Server is already **ONLINE**."
  | .queueWait => "Server is in the **STARTING QUEUE**. Awaiting confirmation..."
  | .startConfirmed => "Start confirmed. Waiting for server to go **ONLINE**."
  | .startSent => "Start command sent. Use `!status` to track progress."
  | .errStart e => "Error starting server: " ++ e
  | .statusOnline p m a =>
      "Status: **ONLINE** ✅\nPlayers: **" ++ toString p ++ "/" ++ toString m
        ++ "**\nAddress: `" ++ a ++ "`"
  | .statusOffline => "Status: **OFFLINE** 🛑"
  | .statusStarting => "Status: **STARTING** 🟡"
  | .statusPending => "Status: **IN QUEUE** ⏳ (Use `!startserver` to try to confirm)"
  | .statusUnknown st => "Status: **" ++ strUpper st ++ "** (Unknown)"
  | .errStatus e => "Error checking status: " ++ e
  | .attemptStop a => "Attempting to **STOP** Aternos server: `" ++ a ++ "`..."
  | .alreadyOffline => "Server is already **OFFLINE**."
  | .stopSent => "Stop command sent. Server should be shutting down."
  | .errStop e => "Error stopping server: " ++ e

/-- Externally visible events of one handler run, in program order: the
host-automation calls it dispatches to a worker thread, direct replies via
`ctx.send`, and replies routed through `send_output`. -/
inductive Ev where
  | callFetch
  | callStatus
  | callPlayers
  | callSlots
  | callStart
  | callConfirm
  | callStop
  | direct (m : Msg)
  | routed (m : Msg)
  deriving DecidableEq, Repr

/-- All replies (direct and routed) of a trace, in order. -/
def replies (t : List Ev) : List Msg :=
  t.filterMap fun ev =>
    match ev with
    | .direct m => some m
    | .routed m => some m
    | _ => none

/-- The replies of a trace that went through the Output Router
(`send_output`), in order. -/
def routedMsgs (t : List Ev) : List Msg :=
  t.filterMap fun ev =>
    match ev with
    | .routed m => some m
    | _ => none

/-- The host-automation calls of a trace, in order. -/
def hostCalls (t : List Ev) : List Ev :=
  t.filter fun ev =>
    match ev with
    | .direct _ => false
    | .routed _ => false
    | _ => true

/-- The Output Router (`send_output` in `bot.py`): a routed reply is
delivered to the bound output channel when one is set, else it falls back
to the invoking channel. -/
def send_output (output_channel : Option Nat) (ctxChannelId : Nat) : Nat :=
  match output_channel with
  | some c => c
  | none => ctxChannelId

/-- The (channel id, text) deliveries a trace produces: direct replies go
to the invoking channel, routed replies go through the Output Router. -/
def deliveries (output_channel : Option Nat) (ctxChannelId : Nat)
    (t : List Ev) : List (Nat × String) :=
  t.filterMap fun ev =>
    match ev with
    | .direct m => some (ctxChannelId, render m)
    | .routed m => some (send_output output_channel ctxChannelId, render m)
    | _ => none

/-- Formatting of the `!status` reply keyed by the fetched state string
(the if/elif chain of `check_status` in `bot.py`). -/
def statusMsg (status : String) (players slots : Nat) (addr : String) : Msg :=
  if status = "online" then .statusOnline players slots addr
  else if status = "offline" then .statusOffline
  else if status = "starting" then .statusStarting
  else if status = "pending" then .statusPending
  else .statusUnknown status

/-- Body of the `!startserver` handler after the channel gate
(`start_server` in `bot.py`, from the session check onwards): session
check, attempting message, status fetch, already-online short circuit,
start call, pending-queue confirm flow, final message; any exception from
a host call is caught and reported once. -/
def start_body (server : Option AternosServer) (env : HostEnv) : List Ev :=
  match server with
  | none => [.direct .notConfigured]
  | some srv =>
    .routed (.attemptStart srv.address) ::
    .callStatus ::
    match env.statusR with
    | .error e => [.routed (.errStart e)]
    | .ok status =>
      if status = "online" then
        [.routed .alreadyOnline]
      else
        .callStart ::
        match env.startR with
        | .error e => [.routed (.errStart e)]
        | .ok _ =>
          if status = "pending" then
            .routed .queueWait ::
            .callConfirm ::
            match env.confirmR with
            | .error e => [.routed (.errStart e)]
            | .ok _ => [.routed .startConfirmed, .routed .startSent]
          else
            [.routed .startSent]

/-- The `!startserver` handler (`start_server` in `bot.py`): channel gate,
then `start_body`. -/
def start_server (output_channel : Option Nat) (server : Option AternosServer)
    (ctxChannelId : Nat) (env : HostEnv) : List Ev :=
  match output_channel with
  | some c =>
      if ctxChannelId ≠ c then [.direct (.wrongChannel c)]
      else start_body server env
  | none => start_body server env

/-- Body of the `!status` handler after the channel gate (`check_status`
in `bot.py`): session check, fresh fetch, then the status, players_count
and slots reads, then one formatted reply; any exception from a host call
is caught and reported once. -/
def status_body (server : Option AternosServer) (env : HostEnv) : List Ev :=
  match server with
  | none => [.direct .notConfigured]
  | some srv =>
    .callFetch ::
    match env.fetchR with
    | .error e => [.routed (.errStatus e)]
    | .ok _ =>
      .callStatus ::
      match env.statusR with
      | .error e => [.routed (.errStatus e)]
      | .ok status =>
        .callPlayers ::
        match env.playersR with
        | .error e => [.routed (.errStatus e)]
        | .ok players =>
          .callSlots ::
          match env.slotsR with
          | .error e => [.routed (.errStatus e)]
          | .ok slots =>
            [.routed (statusMsg status players slots srv.address)]

/-- The `!status` handler (`check_status` in `bot.py`): channel gate, then
`status_body`. -/
def check_status (output_channel : Option Nat) (server : Option AternosServer)
    (ctxChannelId : Nat) (env : HostEnv) : List Ev :=
  match output_channel with
  | some c =>
      if ctxChannelId ≠ c then [.direct (.wrongChannel c)]
      else status_body server env
  | none => status_body server env

/-- Body of the `!stopserver` handler after the channel gate
(`stop_server` in `bot.py`): session check, attempting message, status
fetch, already-offline short circuit, stop call, final message; any
exception from a host call is caught and reported once. -/
def stop_body (server : Option AternosServer) (env : HostEnv) : List Ev :=
  match server with
  | none => [.direct .notConfigured]
  | some srv =>
    .routed (.attemptStop srv.address) ::
    .callStatus ::
    match env.statusR with
    | .error e => [.routed (.errStop e)]
    | .ok status =>
      if status = "offline" then
        [.routed .alreadyOffline]
      else
        .callStop ::
        match env.stopR with
        | .error e => [.routed (.errStop e)]
        | .ok _ => [.routed .stopSent]

/-- The `!stopserver` handler (`stop_server` in `bot.py`): channel gate,
then `stop_body`. -/
def stop_server (output_channel : Option Nat) (server : Option AternosServer)
    (ctxChannelId : Nat) (env : HostEnv) : List Ev :=
  match output_channel with
  | some c =>
      if ctxChannelId ≠ c then [.direct (.wrongChannel c)]
      else stop_body server env
  | none => stop_body server env

/-- Environment of the login routine: the outcome of the blocking Client
constructor and of `list_servers`, each run in a worker thread. -/
structure LoginEnv where
  clientR : Except String Unit
  serversR : Except String (List AternosServer)
  deriving Repr

/-- The global session variables `aternos_client` / `aternos_server` of
`bot.py`. The client handle is opaque; only its presence matters. -/
structure SessionState where
  aternos_client : Option Unit
  aternos_server : Option AternosServer
  deriving DecidableEq, Repr

/-- The login routine (`aternos_login` in `bot.py`): construct the client,
list the servers, select the first; on an empty listing leave the client
set and the server absent; on any exception reset both globals to `None`
in the except clause. -/
def aternos_login (env : LoginEnv) : SessionState :=
  match env.clientR with
  | .error _ => ⟨none, none⟩
  | .ok c =>
    match env.serversR with
    | .error _ => ⟨none, none⟩
    | .ok servers =>
      match servers with
      | [] => ⟨some c, none⟩
      | s :: _ => ⟨some c, some s⟩

/-- Login states of the Session entity. -/
inductive LoginState where
  | LoggedOut
  | LoggingIn
  | Ready
  | Failed (reason : String)
  deriving DecidableEq, Repr

/-- The login state the session is in after `aternos_login` returns,
derived from the control flow of `bot.py`: the try block completing
without an exception is Ready (an empty listing is still a completed
login), and the except clause is Failed with the exception text. -/
def loginStateAfter (env : LoginEnv) : LoginState :=
  match env.clientR with
  | .error e => .Failed e
  | .ok _ =>
    match env.serversR with
    | .error e => .Failed e
    | .ok _ => .Ready

/-- The string `sub` occurs verbatim (contiguously) inside `s`. -/
def containsStr (s sub : String) : Prop := sub.data <:+: s.data

instance (s sub : String) : Decidable (containsStr s sub) :=
  List.decidableInfix sub.data s.data

theorem containsStr_self (s : String) : containsStr s s :=
  ⟨[], [], by simp⟩

theorem containsStr_appendR (s t sub : String) (h : containsStr s sub) :
    containsStr (s ++ t) sub := by
  obtain ⟨u, v, huv⟩ := h
  exact ⟨u, v ++ t.data, by rw [String.data_append, ← huv]; simp⟩

theorem containsStr_appendL (s t sub : String) (h : containsStr t sub) :
    containsStr (s ++ t) sub := by
  obtain ⟨u, v, huv⟩ := h
  exact ⟨s.data ++ u, v, by rw [String.data_append, ← huv]; simp⟩

theorem start_server_gate_pass (oc : Option Nat) (server : Option AternosServer)
    (ctxCh : Nat) (env : HostEnv) (hoc : oc = none ∨ oc = some ctxCh) :
    start_server oc server ctxCh env = start_body server env := by
  rcases hoc with h | h <;> subst h <;> simp [start_server]

theorem check_status_gate_pass (oc : Option Nat) (server : Option AternosServer)
    (ctxCh : Nat) (env : HostEnv) (hoc : oc = none ∨ oc = some ctxCh) :
    check_status oc server ctxCh env = status_body server env := by
  rcases hoc with h | h <;> subst h <;> simp [check_status]

theorem stop_server_gate_pass (oc : Option Nat) (server : Option AternosServer)
    (ctxCh : Nat) (env : HostEnv) (hoc : oc = none ∨ oc = some ctxCh) :
    stop_server oc server ctxCh env = stop_body server env := by
  rcases hoc with h | h <;> subst h <;> simp [stop_server]

/-- C1 counterexample: with the channel gate passing, a selected server,
and a fetched status of online, the start handler produces two replies —
the routed attempting message and then the already-online notice — not
exactly one reply. -/
theorem start_already_online_one_reply_cex :
    replies (start_server none (some ⟨"mc.sample.net"⟩) 0
        ⟨.ok (), .ok ("online"), .ok 0, .ok 0, .ok (), .ok (), .ok ()⟩) =
      [.attemptStart ("mc.sample.net"), .alreadyOnline]
    ∧ (replies (start_server none (some ⟨"mc.sample.net"⟩) 0
        ⟨.ok (), .ok ("online"), .ok 0, .ok 0, .ok (), .ok (), .ok ()⟩)).length ≠ 1 := by
  exact ⟨rfl, by decide⟩

/-- C1 (amended): when the channel and session checks pass and the fetched
status is online, the start handler produces exactly two replies — the
routed attempting message followed by the already-online notice — and the
host start and confirm operations are never invoked. -/
theorem start_already_online_amended (oc : Option Nat) (ctxCh : Nat)
    (srv : AternosServer) (env : HostEnv)
    (hoc : oc = none ∨ oc = some ctxCh)
    (hst : env.statusR = .ok ("online")) :
    start_server oc (some srv) ctxCh env =
      [.routed (.attemptStart srv.address), .callStatus, .routed .alreadyOnline]
    ∧ replies (start_server oc (some srv) ctxCh env) =
      [.attemptStart srv.address, .alreadyOnline]
    ∧ Ev.callStart ∉ start_server oc (some srv) ctxCh env
    ∧ Ev.callConfirm ∉ start_server oc (some srv) ctxCh env := by
  have hb : start_body (some srv) env =
      [.routed (.attemptStart srv.address), .callStatus, .routed .alreadyOnline] := by
    simp [start_body, hst]
  have ht : start_server oc (some srv) ctxCh env =
      [.routed (.attemptStart srv.address), .callStatus, .routed .alreadyOnline] := by
    rcases hoc with h | h <;> subst h <;> simp [start_server, hb]
  refine ⟨ht, ?_, ?_, ?_⟩ <;> simp [ht, replies]

/-- Witness for the amended C1 at a concrete input. -/
theorem start_already_online_amended_witness :
    start_server none (some ⟨"mc.sample.net"⟩) 5
        ⟨.ok (), .ok ("online"), .ok 0, .ok 0, .ok (), .ok (), .ok ()⟩ =
      [.routed (.attemptStart ("mc.sample.net")), .callStatus, .routed .alreadyOnline] :=
  (start_already_online_amended none 5 ⟨"mc.sample.net"⟩
    ⟨.ok (), .ok ("online"), .ok 0, .ok 0, .ok (), .ok (), .ok ()⟩
    (Or.inl rfl) rfl).1

/-- C2 counterexample: with the channel gate passing, a selected server,
and a fetched status of offline, the stop handler produces two replies —
the routed attempting message and then the already-offline notice — not
exactly one reply. -/
theorem stop_already_offline_one_reply_cex :
    replies (stop_server none (some ⟨"mc.probe.net"⟩) 0
        ⟨.ok (), .ok ("offline"), .ok 0, .ok 0, .ok (), .ok (), .ok ()⟩) =
      [.attemptStop ("mc.probe.net"), .alreadyOffline]
    ∧ (replies (stop_server none (some ⟨"mc.probe.net"⟩) 0
        ⟨.ok (), .ok ("offline"), .ok 0, .ok 0, .ok (), .ok (), .ok ()⟩)).length ≠ 1 := by
  exact ⟨rfl, by decide⟩

/-- C2 (amended): when the channel and session checks pass and the fetched
status is offline, the stop handler produces exactly two replies — the
routed attempting message followed by the already-offline notice — and the
host stop operation is never invoked. -/
theorem stop_already_offline_amended (oc : Option Nat) (ctxCh : Nat)
    (srv : AternosServer) (env : HostEnv)
    (hoc : oc = none ∨ oc = some ctxCh)
    (hst : env.statusR = .ok ("offline")) :
    stop_server oc (some srv) ctxCh env =
      [.routed (.attemptStop srv.address), .callStatus, .routed .alreadyOffline]
    ∧ replies (stop_server oc (some srv) ctxCh env) =
      [.attemptStop srv.address, .alreadyOffline]
    ∧ Ev.callStop ∉ stop_server oc (some srv) ctxCh env := by
  have hb : stop_body (some srv) env =
      [.routed (.attemptStop srv.address), .callStatus, .routed .alreadyOffline] := by
    simp [stop_body, hst]
  have ht : stop_server oc (some srv) ctxCh env =
      [.routed (.attemptStop srv.address), .callStatus, .routed .alreadyOffline] := by
    rcases hoc with h | h <;> subst h <;> simp [stop_server, hb]
  refine ⟨ht, ?_, ?_⟩ <;> simp [ht, replies]

/-- Witness for the amended C2 at a concrete input. -/
theorem stop_already_offline_amended_witness :
    stop_server none (some ⟨"mc.probe.net"⟩) 5
        ⟨.ok (), .ok ("offline"), .ok 0, .ok 0, .ok (), .ok (), .ok ()⟩ =
      [.routed (.attemptStop ("mc.probe.net")), .callStatus, .routed .alreadyOffline] :=
  (stop_already_offline_amended none 5 ⟨"mc.probe.net"⟩
    ⟨.ok (), .ok ("offline"), .ok 0, .ok 0, .ok (), .ok (), .ok ()⟩
    (Or.inl rfl) rfl).1

/-- C3: when the channel and session checks pass, the fetched status is
pending, and the start and confirm calls succeed, the start handler
invokes the host start operation and then the confirm operation, and
produces exactly the ordered replies attempting, queue-wait, confirmed,
ending with the final start-command-sent message; the queue-confirmation
report precedes the final message. -/
theorem start_pending_sequence (oc : Option Nat) (ctxCh : Nat)
    (srv : AternosServer) (env : HostEnv)
    (hoc : oc = none ∨ oc = some ctxCh)
    (hst : env.statusR = .ok ("pending"))
    (hstart : env.startR = .ok ())
    (hconf : env.confirmR = .ok ()) :
    start_server oc (some srv) ctxCh env =
      [.routed (.attemptStart srv.address), .callStatus, .callStart,
       .routed .queueWait, .callConfirm, .routed .startConfirmed, .routed .startSent]
    ∧ replies (start_server oc (some srv) ctxCh env) =
      [.attemptStart srv.address, .queueWait, .startConfirmed, .startSent]
    ∧ hostCalls (start_server oc (some srv) ctxCh env) =
      [.callStatus, .callStart, .callConfirm] := by
  have hb : start_body (some srv) env =
      [.routed (.attemptStart srv.address), .callStatus, .callStart,
       .routed .queueWait, .callConfirm, .routed .startConfirmed, .routed .startSent] := by
    simp [start_body, hst, hstart, hconf]
  have ht : start_server oc (some srv) ctxCh env =
      [.routed (.attemptStart srv.address), .callStatus, .callStart,
       .routed .queueWait, .callConfirm, .routed .startConfirmed, .routed .startSent] := by
    rcases hoc with h | h <;> subst h <;> simp [start_server, hb]
  refine ⟨ht, ?_, ?_⟩ <;> simp [ht, replies, hostCalls]

/-- Witness for C3 at a concrete input. -/
theorem start_pending_sequence_witness :
    start_server none (some ⟨"mc.queue.net"⟩) 7
        ⟨.ok (), .ok ("pending"), .ok 0, .ok 0, .ok (), .ok (), .ok ()⟩ =
      [.routed (.attemptStart ("mc.queue.net")), .callStatus, .callStart,
       .routed .queueWait, .callConfirm, .routed .startConfirmed, .routed .startSent] :=
  (start_pending_sequence none 7 ⟨"mc.queue.net"⟩
    ⟨.ok (), .ok ("pending"), .ok 0, .ok 0, .ok (), .ok (), .ok ()⟩
    (Or.inl rfl) rfl rfl rfl).1

/-- C4: for every command handler, when the channel gate passes but no
server is selected, the whole trace is a single direct not-configured
reply — no host-automation call and no routed reply — and the delivery
goes to the invoking channel. -/
theorem not_configured_single_reply (oc : Option Nat) (ctxCh : Nat) (env : HostEnv)
    (hoc : oc = none ∨ oc = some ctxCh) :
    start_server oc none ctxCh env = [.direct .notConfigured]
    ∧ check_status oc none ctxCh env = [.direct .notConfigured]
    ∧ stop_server oc none ctxCh env = [.direct .notConfigured]
    ∧ hostCalls [Ev.direct .notConfigured] = []
    ∧ routedMsgs [Ev.direct .notConfigured] = []
    ∧ deliveries oc ctxCh [Ev.direct .notConfigured] =
        [(ctxCh, render .notConfigured)] := by
  rcases hoc with h | h <;> subst h <;>
    exact ⟨by simp [start_server, start_body], by simp [check_status, status_body],
      by simp [stop_server, stop_body], by simp [hostCalls],
      by simp [routedMsgs], by simp [deliveries]⟩

/-- Witness for C4 at a concrete input. -/
theorem not_configured_single_reply_witness :
    start_server (some 4) none 4
        ⟨.ok (), .ok ("online"), .ok 0, .ok 0, .ok (), .ok (), .ok ()⟩ =
      [.direct .notConfigured] :=
  (not_configured_single_reply (some 4) 4
    ⟨.ok (), .ok ("online"), .ok 0, .ok 0, .ok (), .ok (), .ok ()⟩
    (Or.inr rfl)).1

/-- C5: for every command handler, when an output channel is bound and the
invoking channel differs from it, the whole trace is a single direct
wrong-channel reply delivered to the invoker — no host-automation call is
made and the Output Router is never invoked (no routed reply). -/
theorem wrong_channel_single_reply (c ctxCh : Nat) (server : Option AternosServer)
    (env : HostEnv) (hne : ctxCh ≠ c) :
    start_server (some c) server ctxCh env = [.direct (.wrongChannel c)]
    ∧ check_status (some c) server ctxCh env = [.direct (.wrongChannel c)]
    ∧ stop_server (some c) server ctxCh env = [.direct (.wrongChannel c)]
    ∧ hostCalls [Ev.direct (.wrongChannel c)] = []
    ∧ routedMsgs [Ev.direct (.wrongChannel c)] = []
    ∧ deliveries (some c) ctxCh [Ev.direct (.wrongChannel c)] =
        [(ctxCh, render (.wrongChannel c))] := by
  exact ⟨by simp [start_server, hne], by simp [check_status, hne],
    by simp [stop_server, hne], by simp [hostCalls],
    by simp [routedMsgs], by simp [deliveries]⟩

/-- Witness for C5 at a concrete input. -/
theorem wrong_channel_single_reply_witness :
    start_server (some 9) (some ⟨"mc.gate.net"⟩) 3
        ⟨.ok (), .ok ("online"), .ok 0, .ok 0, .ok (), .ok (), .ok ()⟩ =
      [.direct (.wrongChannel 9)] :=
  (wrong_channel_single_reply 9 3 (some ⟨"mc.gate.net"⟩)
    ⟨.ok (), .ok ("online"), .ok 0, .ok 0, .ok (), .ok (), .ok ()⟩
    (by decide)).1

/-- C6: when the checks pass and every host call succeeds, the status
handler performs the fresh fetch first, then reads status, players_count
and slots, and sends exactly one reply formatted by state: the online
reply contains the player count, the slot count, the address verbatim and
the literal ONLINE marker; offline, starting and pending give fixed texts;
any other state gives the uppercase-echo unknown fallback. -/
theorem status_command_formatting (oc : Option Nat) (ctxCh : Nat)
    (srv : AternosServer) (env : HostEnv) (st : String) (p m : Nat)
    (hoc : oc = none ∨ oc = some ctxCh)
    (hf : env.fetchR = .ok ())
    (hs : env.statusR = .ok st)
    (hp : env.playersR = .ok p)
    (hm : env.slotsR = .ok m) :
    check_status oc (some srv) ctxCh env =
      [.callFetch, .callStatus, .callPlayers, .callSlots,
       .routed (statusMsg st p m srv.address)]
    ∧ (st = "online" →
        containsStr (render (statusMsg st p m srv.address)) (toString p)
        ∧ containsStr (render (statusMsg st p m srv.address)) (toString m)
        ∧ containsStr (render (statusMsg st p m srv.address)) srv.address
        ∧ containsStr (render (statusMsg st p m srv.address)) ("**ONLINE**"))
    ∧ (st = "offline" →
        render (statusMsg st p m srv.address) = "Status: **OFFLINE** 🛑")
    ∧ (st = "starting" →
        render (statusMsg st p m srv.address) = "Status: **STARTING** 🟡")
    ∧ (st = "pending" →
        render (statusMsg st p m srv.address) =
          "Status: **IN QUEUE** ⏳ (Use `!startserver` to try to confirm)")
    ∧ (st ≠ "online" → st ≠ "offline" → st ≠ "starting" → st ≠ "pending" →
        render (statusMsg st p m srv.address) =
          "Status: **" ++ strUpper st ++ "** (Unknown)") := by
  have hb : status_body (some srv) env =
      [.callFetch, .callStatus, .callPlayers, .callSlots,
       .routed (statusMsg st p m srv.address)] := by
    simp [status_body, hf, hs, hp, hm]
  refine ⟨?_, ?_, ?_, ?_, ?_, ?_⟩
  · rcases hoc with h | h <;> subst h <;> simp [check_status, hb]
  · intro h
    subst h
    have hmsg : statusMsg ("online") p m srv.address = .statusOnline p m srv.address := by
      simp [statusMsg]
    rw [hmsg]
    simp only [render]
    refine ⟨?_, ?_, ?_, ?_⟩
    · exact containsStr_appendR _ _ _ (containsStr_appendR _ _ _
        (containsStr_appendR _ _ _ (containsStr_appendR _ _ _
        (containsStr_appendR _ _ _ (containsStr_appendL _ _ _
        (containsStr_self _))))))
    · exact containsStr_appendR _ _ _ (containsStr_appendR _ _ _
        (containsStr_appendR _ _ _ (containsStr_appendL _ _ _
        (containsStr_self _))))
    · exact containsStr_appendR _ _ _ (containsStr_appendL _ _ _
        (containsStr_self _))
    · exact containsStr_appendR _ _ _ (containsStr_appendR _ _ _
        (containsStr_appendR _ _ _ (containsStr_appendR _ _ _
        (containsStr_appendR _ _ _ (containsStr_appendR _ _ _
        (by decide))))))
  · intro h
    subst h
    simp [statusMsg, render]
  · intro h
    subst h
    simp [statusMsg, render]
  · intro h
    subst h
    simp [statusMsg, render]
  · intro h1 h2 h3 h4
    simp [statusMsg, h1, h2, h3, h4, render]

/-- Witness for C6 at the concrete input from the specification: state
online, 3 players, 20 slots, address mc.example.com. -/
theorem status_command_formatting_witness :
    check_status none (some ⟨"mc.example.com"⟩) 2
        ⟨.ok (), .ok ("online"), .ok 3, .ok 20, .ok (), .ok (), .ok ()⟩ =
      [.callFetch, .callStatus, .callPlayers, .callSlots,
       .routed (statusMsg ("online") 3 20 ("mc.example.com"))]
    ∧ containsStr (render (statusMsg ("online") 3 20 ("mc.example.com")))
        (toString 3)
    ∧ containsStr (render (statusMsg ("online") 3 20 ("mc.example.com")))
        (toString 20)
    ∧ containsStr (render (statusMsg ("online") 3 20 ("mc.example.com")))
        ("mc.example.com")
    ∧ containsStr (render (statusMsg ("online") 3 20 ("mc.example.com")))
        ("**ONLINE**") :=
  ⟨(status_command_formatting none 2 ⟨"mc.example.com"⟩
      ⟨.ok (), .ok ("online"), .ok 3, .ok 20, .ok (), .ok (), .ok ()⟩
      ("online") 3 20 (Or.inl rfl) rfl rfl rfl rfl).1,
   (status_command_formatting none 2 ⟨"mc.example.com"⟩
      ⟨.ok (), .ok ("online"), .ok 3, .ok 20, .ok (), .ok (), .ok ()⟩
      ("online") 3 20 (Or.inl rfl) rfl rfl rfl rfl).2.1 rfl⟩

/-- C7: for every host-automation call site of the three command handlers,
an exception with text e makes the handler terminate with the trace ending
in exactly one error reply whose text interpolates e literally — the
failing operation is never re-invoked and no further host call follows.
Each conjunct gives the full trace for one failing call site; the last
three conjuncts show each error reply contains the exception text
verbatim. -/
theorem command_error_reporting (oc : Option Nat) (ctxCh : Nat)
    (srv : AternosServer) (env : HostEnv) (e : String)
    (hoc : oc = none ∨ oc = some ctxCh) :
    (env.statusR = .error e →
      start_server oc (some srv) ctxCh env =
        [.routed (.attemptStart srv.address), .callStatus, .routed (.errStart e)])
    ∧ (∀ st, env.statusR = .ok st → st ≠ "online" → env.startR = .error e →
      start_server oc (some srv) ctxCh env =
        [.routed (.attemptStart srv.address), .callStatus, .callStart,
         .routed (.errStart e)])
    ∧ (env.statusR = .ok ("pending") → env.startR = .ok () →
        env.confirmR = .error e →
      start_server oc (some srv) ctxCh env =
        [.routed (.attemptStart srv.address), .callStatus, .callStart,
         .routed .queueWait, .callConfirm, .routed (.errStart e)])
    ∧ (env.fetchR = .error e →
      check_status oc (some srv) ctxCh env = [.callFetch, .routed (.errStatus e)])
    ∧ (env.fetchR = .ok () → env.statusR = .error e →
      check_status oc (some srv) ctxCh env =
        [.callFetch, .callStatus, .routed (.errStatus e)])
    ∧ (∀ st, env.fetchR = .ok () → env.statusR = .ok st →
        env.playersR = .error e →
      check_status oc (some srv) ctxCh env =
        [.callFetch, .callStatus, .callPlayers, .routed (.errStatus e)])
    ∧ (∀ st p, env.fetchR = .ok () → env.statusR = .ok st →
        env.playersR = .ok p → env.slotsR = .error e →
      check_status oc (some srv) ctxCh env =
        [.callFetch, .callStatus, .callPlayers, .callSlots, .routed (.errStatus e)])
    ∧ (env.statusR = .error e →
      stop_server oc (some srv) ctxCh env =
        [.routed (.attemptStop srv.address), .callStatus, .routed (.errStop e)])
    ∧ (∀ st, env.statusR = .ok st → st ≠ "offline" → env.stopR = .error e →
      stop_server oc (some srv) ctxCh env =
        [.routed (.attemptStop srv.address), .callStatus, .callStop,
         .routed (.errStop e)])
    ∧ containsStr (render (.errStart e)) e
    ∧ containsStr (render (.errStatus e)) e
    ∧ containsStr (render (.errStop e)) e := by
  have g1 := start_server_gate_pass oc (some srv) ctxCh env hoc
  have g2 := check_status_gate_pass oc (some srv) ctxCh env hoc
  have g3 := stop_server_gate_pass oc (some srv) ctxCh env hoc
  refine ⟨?_, ?_, ?_, ?_, ?_, ?_, ?_, ?_, ?_, ?_, ?_, ?_⟩
  · intro h
    rw [g1]
    simp [start_body, h]
  · intro st hst hne h
    rw [g1]
    simp [start_body, hst, hne, h]
  · intro hst hstart h
    rw [g1]
    simp [start_body, hst, hstart, h]
  · intro h
    rw [g2]
    simp [status_body, h]
  · intro hf h
    rw [g2]
    simp [status_body, hf, h]
  · intro st hf hst h
    rw [g2]
    simp [status_body, hf, hst, h]
  · intro st p hf hst hp h
    rw [g2]
    simp [status_body, hf, hst, hp, h]
  · intro h
    rw [g3]
    simp [stop_body, h]
  · intro st hst hne h
    rw [g3]
    simp [stop_body, hst, hne, h]
  · exact containsStr_appendL _ _ _ (containsStr_self e)
  · exact containsStr_appendL _ _ _ (containsStr_self e)
  · exact containsStr_appendL _ _ _ (containsStr_self e)

/-- Witness for C7 at a concrete input: the status fetch of the start
handler raises, and the trace ends with the single error reply. -/
theorem command_error_reporting_witness :
    start_server none (some ⟨"mc.err.net"⟩) 1
        ⟨.ok (), .error ("boom"), .ok 0, .ok 0, .ok (), .ok (), .ok ()⟩ =
      [.routed (.attemptStart ("mc.err.net")), .callStatus,
       .routed (.errStart ("boom"))] :=
  (command_error_reporting none 1 ⟨"mc.err.net"⟩
    ⟨.ok (), .error ("boom"), .ok 0, .ok 0, .ok (), .ok (), .ok ()⟩
    ("boom") (Or.inl rfl)).1 rfl

/-- C8: when login succeeds but the server listing is empty, the login
completes as Ready with the client handle set and the selected server
absent, and every subsequent command run against that session state is
exactly the not-configured case: one direct not-configured reply and no
host-automation call. -/
theorem login_empty_listing_not_configured (envL : LoginEnv) (oc : Option Nat)
    (ctxCh : Nat) (env : HostEnv)
    (hcl : envL.clientR = .ok ())
    (hsv : envL.serversR = .ok [])
    (hoc : oc = none ∨ oc = some ctxCh) :
    aternos_login envL = ⟨some (), none⟩
    ∧ loginStateAfter envL = .Ready
    ∧ start_server oc ((aternos_login envL).aternos_server) ctxCh env =
        [.direct .notConfigured]
    ∧ check_status oc ((aternos_login envL).aternos_server) ctxCh env =
        [.direct .notConfigured]
    ∧ stop_server oc ((aternos_login envL).aternos_server) ctxCh env =
        [.direct .notConfigured]
    ∧ hostCalls [Ev.direct .notConfigured] = [] := by
  have hlog : aternos_login envL = ⟨some (), none⟩ := by
    simp [aternos_login, hcl, hsv]
  have hstate : loginStateAfter envL = .Ready := by
    simp [loginStateAfter, hcl, hsv]
  have hsrv : (aternos_login envL).aternos_server = none := by
    rw [hlog]
  rw [hsrv]
  rcases hoc with h | h <;> subst h <;>
    exact ⟨hlog, hstate, by simp [start_server, start_body],
      by simp [check_status, status_body], by simp [stop_server, stop_body],
      by simp [hostCalls]⟩

/-- Witness for C8 at a concrete input. -/
theorem login_empty_listing_not_configured_witness :
    aternos_login ⟨.ok (), .ok []⟩ = ⟨some (), none⟩
    ∧ start_server none ((aternos_login ⟨.ok (), .ok []⟩).aternos_server) 8
        ⟨.ok (), .ok ("online"), .ok 0, .ok 0, .ok (), .ok (), .ok ()⟩ =
      [.direct .notConfigured] :=
  ⟨(login_empty_listing_not_configured ⟨.ok (), .ok []⟩ none 8
      ⟨.ok (), .ok ("online"), .ok 0, .ok 0, .ok (), .ok (), .ok ()⟩
      rfl rfl (Or.inl rfl)).1,
   (login_empty_listing_not_configured ⟨.ok (), .ok []⟩ none 8
      ⟨.ok (), .ok ("online"), .ok 0, .ok 0, .ok (), .ok (), .ok ()⟩
      rfl rfl (Or.inl rfl)).2.2.1⟩

/-- C9: the session invariant holds after every login outcome — the
selected server is present only when the login state is Ready and the
client handle is present too; on success with a non-empty listing the
client and the first listed server are both set; on any exception from the
client constructor or the listing call both globals are reset to absent. -/
theorem login_session_invariant (envL : LoginEnv) :
    ((aternos_login envL).aternos_server.isSome = true →
      loginStateAfter envL = .Ready
      ∧ (aternos_login envL).aternos_client.isSome = true)
    ∧ (∀ s rest, envL.clientR = .ok () → envL.serversR = .ok (s :: rest) →
        aternos_login envL = ⟨some (), some s⟩ ∧ loginStateAfter envL = .Ready)
    ∧ (∀ e, envL.clientR = .error e → aternos_login envL = ⟨none, none⟩)
    ∧ (∀ e, envL.serversR = .error e → aternos_login envL = ⟨none, none⟩) := by
  obtain ⟨cR, sR⟩ := envL
  cases cR with
  | error e0 => simp [aternos_login, loginStateAfter]
  | ok c =>
    cases sR with
    | error e0 => simp [aternos_login, loginStateAfter]
    | ok servers =>
      cases servers with
      | nil => simp [aternos_login, loginStateAfter]
      | cons s0 rest0 =>
        refine ⟨?_, ?_, ?_, ?_⟩
        · intro _
          exact ⟨rfl, rfl⟩
        · intro s rest _ hsv
          have hlist : s0 :: rest0 = s :: rest := by
            injection hsv
          have hs : s0 = s := by
            injection hlist
          subst hs
          exact ⟨rfl, rfl⟩
        · intro e he
          exact absurd he (by simp)
        · intro e he
          exact absurd he (by simp)

/-- Witness for C9 at a concrete input: a one-server listing yields the
client and that server. -/
theorem login_session_invariant_witness :
    aternos_login ⟨.ok (), .ok [⟨"mc.first.net"⟩]⟩ =
      ⟨some (), some ⟨"mc.first.net"⟩⟩ :=
  ((login_session_invariant ⟨.ok (), .ok [⟨"mc.first.net"⟩]⟩).2.1
    ⟨"mc.first.net"⟩ [] rfl rfl).1

/-- C10: whenever the channel and session checks of the start or stop
handler pass, the first event is the attempting message routed through the
Output Router — its text contains the selected server's address — and the
status fetch happens only after it; in particular the already-online and
already-offline no-op paths still produce this message in addition to
their final reply, and its delivery target is the Output Router's
destination. -/
theorem attempt_message_before_fetch (oc : Option Nat) (ctxCh : Nat)
    (srv : AternosServer) (env : HostEnv)
    (hoc : oc = none ∨ oc = some ctxCh) :
    (∃ rest, start_server oc (some srv) ctxCh env =
        .routed (.attemptStart srv.address) :: Ev.callStatus :: rest)
    ∧ (∃ rest, stop_server oc (some srv) ctxCh env =
        .routed (.attemptStop srv.address) :: Ev.callStatus :: rest)
    ∧ containsStr (render (.attemptStart srv.address)) srv.address
    ∧ containsStr (render (.attemptStop srv.address)) srv.address
    ∧ (deliveries oc ctxCh (start_server oc (some srv) ctxCh env)).head? =
        some (send_output oc ctxCh, render (.attemptStart srv.address))
    ∧ (env.statusR = .ok ("online") →
        replies (start_server oc (some srv) ctxCh env) =
          [.attemptStart srv.address, .alreadyOnline])
    ∧ (env.statusR = .ok ("offline") →
        replies (stop_server oc (some srv) ctxCh env) =
          [.attemptStop srv.address, .alreadyOffline]) := by
  have hstart : ∃ rest, start_server oc (some srv) ctxCh env =
      .routed (.attemptStart srv.address) :: Ev.callStatus :: rest := by
    rw [start_server_gate_pass oc (some srv) ctxCh env hoc]
    exact ⟨_, rfl⟩
  have hstop : ∃ rest, stop_server oc (some srv) ctxCh env =
      .routed (.attemptStop srv.address) :: Ev.callStatus :: rest := by
    rw [stop_server_gate_pass oc (some srv) ctxCh env hoc]
    exact ⟨_, rfl⟩
  refine ⟨hstart, hstop, ?_, ?_, ?_, ?_, ?_⟩
  · exact containsStr_appendR _ _ _ (containsStr_appendL _ _ _
      (containsStr_self _))
  · exact containsStr_appendR _ _ _ (containsStr_appendL _ _ _
      (containsStr_self _))
  · obtain ⟨rest, hr⟩ := hstart
    rw [hr]
    simp [deliveries]
  · intro hst
    have hb : start_body (some srv) env =
        [.routed (.attemptStart srv.address), .callStatus, .routed .alreadyOnline] := by
      simp [start_body, hst]
    rcases hoc with h | h <;> subst h <;> simp [start_server, hb, replies]
  · intro hst
    have hb : stop_body (some srv) env =
        [.routed (.attemptStop srv.address), .callStatus, .routed .alreadyOffline] := by
      simp [stop_body, hst]
    rcases hoc with h | h <;> subst h <;> simp [stop_server, hb, replies]

/-- Witness for C10 at a concrete input: the offline no-op stop run still
begins with the routed attempting message before the status fetch. -/
theorem attempt_message_before_fetch_witness :
    (∃ rest, stop_server none (some ⟨"mc.head.net"⟩) 6
        ⟨.ok (), .ok ("offline"), .ok 0, .ok 0, .ok (), .ok (), .ok ()⟩ =
      .routed (.attemptStop ("mc.head.net")) :: Ev.callStatus :: rest)
    ∧ replies (stop_server none (some ⟨"mc.head.net"⟩) 6
        ⟨.ok (), .ok ("offline"), .ok 0, .ok 0, .ok (), .ok (), .ok ()⟩) =
      [.attemptStop ("mc.head.net"), .alreadyOffline] :=
  ⟨(attempt_message_before_fetch none 6 ⟨"mc.head.net"⟩
      ⟨.ok (), .ok ("offline"), .ok 0, .ok 0, .ok (), .ok (), .ok ()⟩
      (Or.inl rfl)).2.1,
   (attempt_message_before_fetch none 6 ⟨"mc.head.net"⟩
      ⟨.ok (), .ok ("offline"), .ok 0, .ok 0, .ok (), .ok (), .ok ()⟩
      (Or.inl rfl)).2.2.2.2.2.2 rfl⟩

end AternosBot
